import Mathlib

/-
Shallow embedding of src/scripts/pre_commit_linter.py (Oppia pre-commit
lint orchestrator).

Modelling conventions:
  * A child-process invocation of the jscs linter on one file is abstracted
    by a function `jsRun : String → LintResult` giving the bytes that the
    invocation would write to its standard output and standard error streams.
  * `sys.exit(n)` is modelled by short-circuiting the run and recording the
    exit code `n`; a run of `_pre_commit_linter` that returns normally has
    process exit code 0.
  * pylint runs in-process via `lint.Run`, which terminates by raising
    `SystemExit e`; the code inspects `str(e)`.  That string is the
    `pyExitMsg` parameter.
  * Printing, wall-clock timing and the float formatting of elapsed time
    are side effects with no bearing on any claim; the returned summary
    strings are represented by the inductive `LintSummary`, one constructor
    per distinct returned string shape (the empty string, the FAILED and
    SUCCESS JavaScript strings, the FAILED and SUCCESS Python strings).
  * Filesystem and git state (os.path.exists, os.path.isfile, os.walk,
    git diff output) are inputs of the run, collected in `RunEnv`.
-/

namespace PreCommit

/-- The two captured streams of one external linter invocation
(the `proc.communicate()` call in `_lint_js_files`). -/
structure LintResult where
  stdout : String
  stderr : String
deriving DecidableEq, Repr

/-- The summary string returned by `_lint_js_files` or `_lint_py_files`,
one constructor per distinct string shape in the source. -/
inductive LintSummary where
  /-- The empty string, returned when the bucket is empty
  (there are no files to lint). -/
  | noFiles : LintSummary
  /-- The string `FAILED    <num_files_with_errors> JavaScript files`. -/
  | jsFailed (numErrors : Nat) : LintSummary
  /-- The string `SUCCESS   <num_js_files> JavaScript files linted`. -/
  | jsSuccess (numFiles : Nat) : LintSummary
  /-- The string `FAILED    Python linting failed`. -/
  | pyFailed : LintSummary
  /-- The string `SUCCESS   <num_py_files> Python files linted`. -/
  | pySuccess (numFiles : Nat) : LintSummary
deriving DecidableEq, Repr

/-- The summary string starts with SUCCESS (spec status Success). -/
def LintSummary.isSuccess : LintSummary → Bool
  | .jsSuccess _ => true
  | .pySuccess _ => true
  | _ => false

/-- The summary string starts with FAILED (spec status Failure). -/
def LintSummary.isFailure : LintSummary → Bool
  | .jsFailed _ => true
  | .pyFailed => true
  | _ => false

/-- The summary is the empty string (spec status NotApplicable). -/
def LintSummary.isNotApplicable : LintSummary → Bool
  | .noFiles => true
  | _ => false

/-- Models `os.path.join(os.getcwd(), parsed_args.path)` on line 224 for a
relative argument. -/
def joinPath (cwd p : String) : String := cwd ++ "/" ++ p

/-- Function `_get_changed_filenames` (lines 86-97): the output lines of
`git diff --name-only` followed by those of
`git diff --cached --name-only --diff-filter=ACM`, concatenated with `+`,
with no de-duplication. -/
def getChangedFilenames (unstaged staged : List String) : List String :=
  unstaged ++ staged

/-- Models the Python method `str.endswith(pat)`: the character sequence
of `pat` is a suffix of the character sequence of `s`. -/
def pyEndsWith (s pat : String) : Bool := pat.data.isSuffixOf s.data

/-- The `for ind, filename in enumerate(files_to_lint)` loop of
`_lint_js_files` (lines 145-161).  Returns the list of files a jscs
process was actually launched on, paired with `some num_files_with_errors`
when the loop runs to completion and `none` when a non-empty stderr
triggers `sys.exit(1)` (lines 154-157). -/
def jsLintLoop (run : String → LintResult) :
    List String → Nat → List String × Option Nat
  | [], acc => ([], some acc)
  | f :: fs, acc =>
    if (run f).stderr ≠ "" then
      ([f], none)
    else
      let rest := jsLintLoop run fs (if (run f).stdout ≠ "" then acc + 1 else acc)
      (f :: rest.1, rest.2)

/-- Function `_lint_js_files` (lines 119-169).  First component: the files
jscs was invoked on.  Second component: `none` models `sys.exit(1)` (the
function never returns); `some s` is the returned summary string. -/
def lintJsFiles (run : String → LintResult) (files : List String) :
    List String × Option LintSummary :=
  if files.isEmpty then
    ([], some .noFiles)
  else
    match jsLintLoop run files 0 with
    | (inv, none) => (inv, none)
    | (inv, some n) =>
      (inv, some (if n ≠ 0 then .jsFailed n else .jsSuccess files.length))

/-- Function `_lint_py_files` (lines 172-209).  The argument `pyExitMsg`
is `str(e)` for the `SystemExit e` raised by
`lint.Run(files_to_lint + [config_pylint])`; the flag `are_there_errors`
is set exactly when that string differs from `0` (lines 199-201). -/
def lintPyFiles (pyExitMsg : String) (files : List String) : LintSummary :=
  if files.isEmpty then .noFiles
  else if pyExitMsg ≠ "0" then .pyFailed
  else .pySuccess files.length

/-- The JavaScript bucket (lines 256-257): the filenames of `all_files`
that end with `.js`, in order. -/
def jsBucket (allFiles : List String) : List String :=
  allFiles.filter (fun f => pyEndsWith f ".js")

/-- The Python bucket (lines 258-259): the filenames of `all_files`
that end with `.py`, in order. -/
def pyBucket (allFiles : List String) : List String :=
  allFiles.filter (fun f => pyEndsWith f ".py")

/-- Number of JS files whose invocation wrote to stdout: the final value
of `num_files_with_errors` when the loop of `_lint_js_files` completes. -/
def numJsErrors (run : String → LintResult) (files : List String) : Nat :=
  files.countP (fun f => (run f).stdout != "")

/-- Ambient state a run reads: module-level tool checks, the parsed
`--path` argument, the filesystem, the git change lists, the behaviour of
each jscs child process, and the pylint `SystemExit` payload. -/
structure RunEnv where
  /-- Result of `os.path.exists(_PYLINT_PATH)` at module load (lines 60-66). -/
  pylintInstalled : Bool
  /-- Result of `os.path.exists(jscs_path)` (line 243). -/
  jscsInstalled : Bool
  /-- The parsed `--path` argument, `parsed_args.path` (line 222). -/
  pathArg : Option String
  /-- Result of `os.path.exists` on the joined input path (line 225). -/
  pathExists : String → Bool
  /-- Result of `os.path.isfile` on the joined input path (line 249). -/
  pathIsFile : String → Bool
  /-- Function `_get_all_files_in_directory` (lines 100-116): the os.walk
  of the directory, with paths relative to the working directory. -/
  walkFiles : String → List String
  /-- Output lines of `git diff --name-only`. -/
  unstagedFiles : List String
  /-- Output lines of `git diff --cached --name-only --diff-filter=ACM`. -/
  stagedFiles : List String
  /-- The stdout and stderr of the jscs child process on each file. -/
  jsRun : String → LintResult
  /-- The value of `str(e)` for the `SystemExit e` raised by `lint.Run`. -/
  pyExitMsg : String

/-- Observable trace of one run of the script. -/
structure RunTrace where
  /-- JS files a jscs child process was launched on, in order. -/
  jsInvoked : List String
  /-- Whether `lint.Run` was invoked at all. -/
  pyLintRan : Bool
  /-- Process exit code (0 when `_pre_commit_linter` returns normally). -/
  exitCode : Nat
  /-- The `summary_messages` printed at the end (empty when the process
  exited before reaching line 269). -/
  summaries : List LintSummary
deriving DecidableEq, Repr

/-- Lines 261-270 of `_pre_commit_linter`: run `_lint_js_files` on the JS
bucket, then `_lint_py_files` on the Python bucket, print the two summary
messages, return (process exit 0).  A `sys.exit(1)` inside
`_lint_js_files` ends the whole process before pylint runs.  `lint.Run`
is invoked exactly when the Python bucket is non-empty (line 189 returns
before line 198 otherwise). -/
def runBuckets (env : RunEnv) (jsFiles pyFiles : List String) : RunTrace :=
  match lintJsFiles env.jsRun jsFiles with
  | (inv, none) => ⟨inv, false, 1, []⟩
  | (inv, some jsSum) =>
    ⟨inv, !pyFiles.isEmpty, 0, [jsSum, lintPyFiles env.pyExitMsg pyFiles]⟩

/-- Lines 256-270: bucket the candidate files by extension and run both
linters. -/
def runLinters (env : RunEnv) (allFiles : List String) : RunTrace :=
  runBuckets env (jsBucket allFiles) (pyBucket allFiles)

/-- Lines 248-254: the candidate file list, `all_files`. -/
def candidateFiles (cwd : String) (env : RunEnv) : List String :=
  match env.pathArg with
  | some p =>
    if env.pathIsFile (joinPath cwd p) then [joinPath cwd p]
    else env.walkFiles (joinPath cwd p)
  | none => getChangedFilenames env.unstagedFiles env.stagedFiles

/-- The guard of lines 223-228: an explicit path was given and
`os.path.exists` rejects it. -/
def pathMissing (cwd : String) (env : RunEnv) : Bool :=
  match env.pathArg with
  | some p => !env.pathExists (joinPath cwd p)
  | none => false

/-- Function `_pre_commit_linter` (lines 212-270) together with the
module-level pylint check (lines 60-66, which runs `sys.exit(1)` before
anything else when the pylint directory is missing).  Note that the
missing-jscs check (lines 243-246) only prints and is therefore invisible
in the trace, and the missing-path branch (lines 225-228) calls
`sys.exit(0)`. -/
def preCommitLinter (cwd : String) (env : RunEnv) : RunTrace :=
  if env.pylintInstalled = false then
    ⟨[], false, 1, []⟩
  else if pathMissing cwd env then
    ⟨[], false, 0, []⟩
  else
    runLinters env (candidateFiles cwd env)

/-- The given environment with the jscs-installed flag replaced by `b`. -/
def setJscs (env : RunEnv) (b : Bool) : RunEnv :=
  ⟨env.pylintInstalled, b, env.pathArg, env.pathExists, env.pathIsFile,
    env.walkFiles, env.unstagedFiles, env.stagedFiles, env.jsRun, env.pyExitMsg⟩

/-- When no invocation writes to stderr, the loop visits every file and
completes with the count of files that wrote to stdout. -/
theorem jsLintLoop_no_stderr (run : String → LintResult) :
    ∀ (files : List String) (acc : Nat),
      (∀ f ∈ files, (run f).stderr = "") →
      jsLintLoop run files acc =
        (files, some (acc + files.countP (fun f => (run f).stdout != ""))) := by
  intro files
  induction files with
  | nil => intro acc _; simp [jsLintLoop]
  | cons f fs ih =>
    intro acc h
    have hf : (run f).stderr = "" := h f (List.mem_cons_self f fs)
    have hfs : ∀ g ∈ fs, (run g).stderr = "" :=
      fun g hg => h g (List.mem_cons_of_mem f hg)
    simp only [jsLintLoop]
    rw [if_neg (by simp [hf]), ih _ hfs]
    by_cases hs : (run f).stdout = ""
    · simp [List.countP_cons, hs]
    · simp only [List.countP_cons, Prod.mk.injEq, Option.some.injEq, true_and]
      rw [if_pos hs, if_pos (by simp [hs])]
      omega

/-- When the first file writing to stderr sits at position k (0-based),
the loop stops right after it: exactly the first k+1 files are invoked
and the loop ends in `sys.exit(1)`. -/
theorem jsLintLoop_toolError (run : String → LintResult) :
    ∀ (files : List String) (k : Nat) (acc : Nat) (hk : k < files.length),
      (∀ f ∈ files.take k, (run f).stderr = "") →
      (run (files.get ⟨k, hk⟩)).stderr ≠ "" →
      jsLintLoop run files acc = (files.take (k + 1), none) := by
  intro files
  induction files with
  | nil => intro k acc hk _ _; exact absurd hk (by simp)
  | cons f fs ih =>
    intro k acc hk hprev hcur
    cases k with
    | zero =>
      simp only [List.get] at hcur
      simp [jsLintLoop, hcur]
    | succ k =>
      have hf : (run f).stderr = "" := by
        apply hprev f
        simp [List.take_succ_cons]
      have hk' : k < fs.length := Nat.lt_of_succ_lt_succ hk
      have hprev' : ∀ g ∈ fs.take k, (run g).stderr = "" := by
        intro g hg
        apply hprev g
        simp [List.take_succ_cons, hg]
      have hcur' : (run (fs.get ⟨k, hk'⟩)).stderr ≠ "" := hcur
      simp only [jsLintLoop]
      rw [if_neg (by simp [hf]), ih k _ hk' hprev' hcur']
      simp [List.take_succ_cons]

/-- When no invocation writes to stderr and the bucket is non-empty,
`_lint_js_files` returns normally with the FAILED or SUCCESS summary
determined by `num_files_with_errors`. -/
theorem lintJsFiles_no_stderr (run : String → LintResult) (files : List String)
    (hne : files ≠ []) (h : ∀ f ∈ files, (run f).stderr = "") :
    lintJsFiles run files =
      (files, some (if numJsErrors run files ≠ 0 then .jsFailed (numJsErrors run files)
        else .jsSuccess files.length)) := by
  unfold lintJsFiles
  rw [if_neg (by simpa [List.isEmpty_iff] using hne)]
  rw [jsLintLoop_no_stderr run files 0 h]
  simp [numJsErrors]

/-- A run of the two linters either exits inside `_lint_js_files` (then no
summary is printed) or completes, in which case the process exit code is
0 whatever the summaries say. -/
theorem runBuckets_exitCode_or (env : RunEnv) (jsFiles pyFiles : List String) :
    (runBuckets env jsFiles pyFiles).summaries = [] ∨
      (runBuckets env jsFiles pyFiles).exitCode = 0 := by
  unfold runBuckets
  cases hE : lintJsFiles env.jsRun jsFiles with
  | mk inv s =>
    cases s with
    | none => left; rfl
    | some v => right; rfl

/-- When `_lint_js_files` hits a stderr (modelled by a `none` outcome),
the whole run ends with exit code 1, pylint never runs, and no summary is
printed. -/
theorem runBuckets_toolError (env : RunEnv) (jsFiles pyFiles : List String)
    (h : (lintJsFiles env.jsRun jsFiles).2 = none) :
    runBuckets env jsFiles pyFiles =
      ⟨(lintJsFiles env.jsRun jsFiles).1, false, 1, []⟩ := by
  unfold runBuckets
  cases hE : lintJsFiles env.jsRun jsFiles with
  | mk inv s =>
    cases s with
    | none => rfl
    | some v =>
      rw [hE] at h
      exact absurd h (by simp)

/-- C5: for every language bucket, an empty bucket yields the
NotApplicable summary (the empty string), which is neither Success nor
Failure; a non-empty JavaScript bucket whose files all produce no output
on either stream yields the SUCCESS summary; a JavaScript bucket in which
no file writes to stderr but at least one writes to stdout yields the
FAILED summary with a positive violation count; a non-empty Python bucket
yields SUCCESS exactly when pylint signals SystemExit 0 and FAILED
otherwise. -/
theorem c5_bucket_summary (run : String → LintResult) (e : String)
    (files : List String) :
    ((lintJsFiles run []).2 = some LintSummary.noFiles ∧
      lintPyFiles e [] = LintSummary.noFiles ∧
      LintSummary.noFiles.isSuccess = false ∧
      LintSummary.noFiles.isFailure = false) ∧
    (files ≠ [] → (∀ f ∈ files, run f = ⟨"", ""⟩) →
      (lintJsFiles run files).2 = some (LintSummary.jsSuccess files.length)) ∧
    ((∀ f ∈ files, (run f).stderr = "") → (∃ f ∈ files, (run f).stdout ≠ "") →
      (lintJsFiles run files).2 = some (LintSummary.jsFailed (numJsErrors run files)) ∧
        1 ≤ numJsErrors run files) ∧
    (files ≠ [] → e = "0" → lintPyFiles e files = LintSummary.pySuccess files.length) ∧
    (files ≠ [] → e ≠ "0" → lintPyFiles e files = LintSummary.pyFailed) := by
  refine ⟨⟨by simp [lintJsFiles], by simp [lintPyFiles], rfl, rfl⟩, ?_, ?_, ?_, ?_⟩
  · intro hne hclean
    have h : ∀ f ∈ files, (run f).stderr = "" := by
      intro f hm
      rw [hclean f hm]
    rw [lintJsFiles_no_stderr run files hne h]
    have hz : numJsErrors run files = 0 := by
      simp only [numJsErrors, List.countP_eq_zero]
      intro f hm
      rw [hclean f hm]
      simp
    simp [hz]
  · intro h hex
    have hne : files ≠ [] := by
      rcases hex with ⟨f, hm, _⟩
      intro hnil
      rw [hnil] at hm
      exact (List.not_mem_nil f) hm
    have hpos : 1 ≤ numJsErrors run files := by
      rcases hex with ⟨f, hm, hf⟩
      have : 0 < files.countP (fun g => (run g).stdout != "") :=
        List.countP_pos_iff.mpr ⟨f, hm, by simpa using hf⟩
      simpa [numJsErrors] using this
    rw [lintJsFiles_no_stderr run files hne h]
    have hnz : numJsErrors run files ≠ 0 := by omega
    simp [hnz, hpos]
  · intro hne h0
    have hE : files.isEmpty = false := by simpa [List.isEmpty_iff] using hne
    simp [lintPyFiles, hE, h0]
  · intro hne h0
    have hE : files.isEmpty = false := by simpa [List.isEmpty_iff] using hne
    simp [lintPyFiles, hE, h0]

/-- Per-file outcomes used by the C5 witness: one JS file with stdout
diagnostics, all other files silent on both streams. -/
def c5run : String → LintResult :=
  fun f => if f = "bad.js" then ⟨"missing semicolon", ""⟩ else ⟨"", ""⟩

theorem c5_bucket_summary_witness :
    (lintJsFiles c5run []).2 = some LintSummary.noFiles ∧
    (lintJsFiles c5run ["ok.js"]).2 = some (LintSummary.jsSuccess 1) ∧
    (lintJsFiles c5run ["bad.js", "ok.js"]).2 = some (LintSummary.jsFailed 1) ∧
    lintPyFiles "0" ["a.py"] = LintSummary.pySuccess 1 ∧
    lintPyFiles "2" ["a.py"] = LintSummary.pyFailed := by
  refine ⟨(c5_bucket_summary c5run "0" []).1.1, ?_, ?_, ?_, ?_⟩
  · exact (c5_bucket_summary c5run "0" ["ok.js"]).2.1 (by decide) (by decide)
  · have h := (c5_bucket_summary c5run "0" ["bad.js", "ok.js"]).2.2.1 (by decide)
      ⟨"bad.js", by decide, by decide⟩
    have hn : numJsErrors c5run ["bad.js", "ok.js"] = 1 := by decide
    rw [hn] at h
    exact h.1
  · exact (c5_bucket_summary c5run "0" ["a.py"]).2.2.2.1 (by decide) rfl
  · exact (c5_bucket_summary c5run "2" ["a.py"]).2.2.2.2 (by decide) (by decide)

/-- C6: when the jscs invocation on the file at 0-based position k of the
bucket writes to its error stream and no earlier invocation did, exactly
the first k+1 files are invoked — the linter is never launched on the
files after position k — and the run ends by `sys.exit(1)`. -/
theorem c6_toolError_halts_bucket (run : String → LintResult)
    (files : List String) (k : Nat) (hk : k < files.length)
    (hprev : ∀ f ∈ files.take k, (run f).stderr = "")
    (hcur : (run (files.get ⟨k, hk⟩)).stderr ≠ "") :
    (lintJsFiles run files).1 = files.take (k + 1) ∧
      (lintJsFiles run files).2 = none := by
  have hne : files ≠ [] := by
    intro h
    rw [h] at hk
    exact absurd hk (by simp)
  unfold lintJsFiles
  rw [if_neg (by simpa [List.isEmpty_iff] using hne)]
  rw [jsLintLoop_toolError run files k 0 hk hprev hcur]
  exact ⟨rfl, rfl⟩

/-- Per-file outcomes used by the C6 witness: the second file crashes the
linter (stderr output), the others are silent. -/
def c6run : String → LintResult :=
  fun f => if f = "b.js" then ⟨"", "jscs crashed"⟩ else ⟨"", ""⟩

theorem c6_toolError_halts_bucket_witness :
    (lintJsFiles c6run ["a.js", "b.js", "c.js", "d.js"]).1 = ["a.js", "b.js"] ∧
      (lintJsFiles c6run ["a.js", "b.js", "c.js", "d.js"]).2 = none := by
  have h := c6_toolError_halts_bucket c6run ["a.js", "b.js", "c.js", "d.js"] 1
    (by decide) (by decide) (by decide)
  exact ⟨h.1.trans (by decide), h.2⟩

/-- C7: with no explicit path, the candidate set is the unstaged list
followed by the staged list, concatenated without de-duplication, so the
number of occurrences of any filename is the sum of its occurrences in
the two version-control lists. -/
theorem c7_changed_files_concat (cwd : String) (env : RunEnv)
    (h : env.pathArg = none) :
    candidateFiles cwd env = env.unstagedFiles ++ env.stagedFiles ∧
      ∀ f, (candidateFiles cwd env).count f =
        env.unstagedFiles.count f + env.stagedFiles.count f := by
  have hc : candidateFiles cwd env = env.unstagedFiles ++ env.stagedFiles := by
    unfold candidateFiles
    rw [h]
    rfl
  refine ⟨hc, fun f => ?_⟩
  rw [hc, List.count_append]

/-- Environment for the C7 witness: one file both unstaged and staged. -/
def c7env : RunEnv :=
  ⟨true, true, none, fun _ => true, fun _ => false, fun _ => [],
    ["dup.py", "x.js"], ["dup.py"], fun _ => ⟨"", ""⟩, "0"⟩

theorem c7_changed_files_concat_witness :
    candidateFiles "oppia" c7env = ["dup.py", "x.js", "dup.py"] ∧
      (candidateFiles "oppia" c7env).count "dup.py" = 2 := by
  have h := c7_changed_files_concat "oppia" c7env rfl
  exact ⟨h.1.trans (by decide), (h.2 "dup.py").trans (by decide)⟩

/-- C8: with an explicit path argument that resolves to an existing
single file, the candidate set is exactly the one-element list holding
that resolved path, whatever the version-control lists contain; the run
then proceeds to lint exactly that candidate set. -/
theorem c8_explicit_file_candidate (cwd p : String) (env : RunEnv)
    (hp : env.pathArg = some p)
    (hex : env.pathExists (joinPath cwd p) = true)
    (hf : env.pathIsFile (joinPath cwd p) = true) :
    candidateFiles cwd env = [joinPath cwd p] ∧
      (candidateFiles cwd env).length = 1 ∧
      (env.pylintInstalled = true →
        preCommitLinter cwd env = runLinters env [joinPath cwd p]) := by
  have hc : candidateFiles cwd env = [joinPath cwd p] := by
    unfold candidateFiles
    rw [hp]
    simp [hf]
  refine ⟨hc, by rw [hc]; rfl, fun hpy => ?_⟩
  have hm : pathMissing cwd env = false := by
    simp [pathMissing, hp, hex]
  rw [← hc]
  simp [preCommitLinter, hpy, hm]

/-- Environment for the C8 witness: an explicit path naming an existing
file, with non-empty version-control lists that must be ignored. -/
def c8env : RunEnv :=
  ⟨true, true, some "core/a.js", fun _ => true, fun _ => true,
    fun _ => ["w.py"], ["u.py"], ["s.py"], fun _ => ⟨"", ""⟩, "0"⟩

theorem c8_explicit_file_candidate_witness :
    candidateFiles "oppia" c8env = ["oppia/core/a.js"] ∧
      preCommitLinter "oppia" c8env = runLinters c8env ["oppia/core/a.js"] := by
  have h := c8_explicit_file_candidate "oppia" "core/a.js" c8env rfl rfl rfl
  exact ⟨h.1.trans (by decide), h.2.2 rfl⟩

/-- C9: a file whose name ends neither in .js nor in .py is a member of
no language bucket; each bucket is an order-preserving sublist of the
candidate set; and inserting such a file anywhere in the candidate set
leaves the whole run trace — in particular every Failure summary —
unchanged. -/
theorem c9_router_unrecognized (env : RunEnv) (files l1 l2 : List String)
    (f : String)
    (hjs : pyEndsWith f ".js" = false) (hpy : pyEndsWith f ".py" = false) :
    f ∉ jsBucket files ∧ f ∉ pyBucket files ∧
      (jsBucket files).Sublist files ∧ (pyBucket files).Sublist files ∧
      runLinters env (l1 ++ f :: l2) = runLinters env (l1 ++ l2) := by
  refine ⟨?_, ?_, List.filter_sublist files, List.filter_sublist files, ?_⟩
  · intro hm
    have hq := (List.mem_filter.mp hm).2
    rw [hjs] at hq
    exact Bool.false_ne_true hq
  · intro hm
    have hq := (List.mem_filter.mp hm).2
    rw [hpy] at hq
    exact Bool.false_ne_true hq
  · unfold runLinters
    have h1 : jsBucket (l1 ++ f :: l2) = jsBucket (l1 ++ l2) := by
      unfold jsBucket
      simp [List.filter_append, List.filter_cons, hjs]
    have h2 : pyBucket (l1 ++ f :: l2) = pyBucket (l1 ++ l2) := by
      unfold pyBucket
      simp [List.filter_append, List.filter_cons, hpy]
    rw [h1, h2]

/-- Environment for the C9 witness. -/
def c9env : RunEnv :=
  ⟨true, true, none, fun _ => true, fun _ => false, fun _ => [],
    ["a.js", "c.txt", "b.py"], [], fun _ => ⟨"", ""⟩, "0"⟩

theorem c9_router_unrecognized_witness :
    "c.txt" ∉ jsBucket ["a.js", "c.txt", "b.py"] ∧
      "c.txt" ∉ pyBucket ["a.js", "c.txt", "b.py"] ∧
      runLinters c9env (["a.js"] ++ "c.txt" :: ["b.py"]) =
        runLinters c9env (["a.js"] ++ ["b.py"]) := by
  have h := c9_router_unrecognized c9env ["a.js", "c.txt", "b.py"] ["a.js"]
    ["b.py"] "c.txt" (by decide) (by decide)
  exact ⟨h.1, h.2.1, h.2.2.2.2⟩

/-- C10: a non-empty Python bucket is classified solely by the string
pylint signals via SystemExit: the summary is FAILED exactly when that
string differs from 0 and SUCCESS exactly when it equals 0; any two
non-zero exit strings (a genuine violation exit and a tool-crash exit)
give the identical summary, so the two cases are indistinguishable.  The
per-file stderr rule of the JavaScript path takes no part: the Python
summary is a function of the single batch exit string and the file count
only. -/
theorem c10_py_batch_exit_code (e e1 e2 : String) (files : List String)
    (hne : files ≠ []) :
    (lintPyFiles e files = LintSummary.pyFailed ↔ e ≠ "0") ∧
      (lintPyFiles e files = LintSummary.pySuccess files.length ↔ e = "0") ∧
      (e1 ≠ "0" → e2 ≠ "0" → lintPyFiles e1 files = lintPyFiles e2 files) := by
  have hE : files.isEmpty = false := by simpa [List.isEmpty_iff] using hne
  refine ⟨?_, ?_, ?_⟩
  · by_cases h0 : e = "0" <;> simp [lintPyFiles, hE, h0]
  · by_cases h0 : e = "0" <;> simp [lintPyFiles, hE, h0]
  · intro h1 h2
    simp [lintPyFiles, hE, h1, h2]

theorem c10_py_batch_exit_code_witness :
    (lintPyFiles "2" ["a.py", "b.py"] = LintSummary.pyFailed ↔ "2" ≠ "0") ∧
      lintPyFiles "1" ["a.py", "b.py"] = lintPyFiles "32" ["a.py", "b.py"] := by
  have h := c10_py_batch_exit_code "2" "1" "32" ["a.py", "b.py"] (by decide)
  exact ⟨h.1, h.2.2 (by decide) (by decide)⟩

/-- Environment refuting C1: one unstaged JavaScript file whose jscs
invocation writes violations to stdout (and nothing to stderr). -/
def c1env : RunEnv :=
  ⟨true, true, none, fun _ => true, fun _ => false, fun _ => [],
    ["bad.js"], [],
    fun f => if f = "bad.js" then ⟨"missing semicolon", ""⟩ else ⟨"", ""⟩, "0"⟩

/-- C1 counterexample: a run whose JavaScript bucket contains a file with
diagnostic output completes with a FAILED summary — overall status
Failure — yet the process exit code is 0, not non-zero. -/
theorem c1_counterexample :
    (preCommitLinter "oppia" c1env).summaries =
        [LintSummary.jsFailed 1, LintSummary.noFiles] ∧
      ((preCommitLinter "oppia" c1env).summaries.any LintSummary.isFailure) = true ∧
      (preCommitLinter "oppia" c1env).exitCode = 0 := by decide

/-- C1 amended: the process exit code never reflects the lint verdict.
Every run that completes and prints its summary report exits with code 0,
even when a summary is Failure; a non-zero exit occurs only on the two
early-termination paths (missing pylint installation, jscs writing to
stderr), both of which print no report. -/
theorem c1_amended_completed_run_exits_zero (cwd : String) (env : RunEnv)
    (h : (preCommitLinter cwd env).summaries ≠ []) :
    (preCommitLinter cwd env).exitCode = 0 := by
  unfold preCommitLinter at h ⊢
  by_cases hpy : env.pylintInstalled = false
  · rw [if_pos hpy] at h
    exact absurd rfl h
  · rw [if_neg hpy] at h ⊢
    by_cases hm : pathMissing cwd env = true
    · rw [if_pos hm] at h
      exact absurd rfl h
    · rw [if_neg hm] at h ⊢
      rcases runBuckets_exitCode_or env (jsBucket (candidateFiles cwd env))
        (pyBucket (candidateFiles cwd env)) with h0 | h0
      · exact absurd h0 h
      · exact h0

theorem c1_amended_completed_run_exits_zero_witness :
    (preCommitLinter "oppia" c1env).exitCode = 0 :=
  c1_amended_completed_run_exits_zero "oppia" c1env (by decide)

/-- Environment refuting C2: an explicit path that exists nowhere on the
filesystem. -/
def c2env : RunEnv :=
  ⟨true, true, some "no_such_dir", fun _ => false, fun _ => false,
    fun _ => [], ["u.js"], ["s.py"], fun _ => ⟨"", ""⟩, "2"⟩

/-- C2 counterexample: with an explicit path that does not exist, the run
does terminate before any linter is invoked, but the call is
`sys.exit(0)`: the exit status is 0, not non-zero. -/
theorem c2_counterexample :
    preCommitLinter "oppia" c2env = ⟨[], false, 0, []⟩ ∧
      (preCommitLinter "oppia" c2env).exitCode = 0 := by decide

/-- C2 amended: an explicit path that does not exist terminates the run
immediately — no jscs process is launched, pylint never runs, no summary
is printed — but with exit status 0. -/
theorem c2_amended_missing_path_exits_zero (cwd p : String) (env : RunEnv)
    (hpy : env.pylintInstalled = true)
    (hp : env.pathArg = some p)
    (hex : env.pathExists (joinPath cwd p) = false) :
    preCommitLinter cwd env = ⟨[], false, 0, []⟩ := by
  have hm : pathMissing cwd env = true := by
    simp [pathMissing, hp, hex]
  simp [preCommitLinter, hpy, hm]

theorem c2_amended_missing_path_exits_zero_witness :
    preCommitLinter "oppia" c2env = ⟨[], false, 0, []⟩ :=
  c2_amended_missing_path_exits_zero "oppia" "no_such_dir" c2env rfl rfl rfl

/-- Environment refuting C3: the only JavaScript file crashes jscs
(stderr output) while a Python file is waiting in the sibling bucket. -/
def c3env : RunEnv :=
  ⟨true, true, none, fun _ => true, fun _ => false, fun _ => [],
    ["bad.js", "mod.py"], [],
    fun f => if f = "bad.js" then ⟨"", "cannot load config"⟩ else ⟨"", ""⟩, "0"⟩

/-- C3 counterexample: a ToolError in the JavaScript bucket terminates
the entire process with exit 1; the sibling Python bucket, although
non-empty, is never linted. -/
theorem c3_counterexample :
    pyBucket (candidateFiles "oppia" c3env) = ["mod.py"] ∧
      preCommitLinter "oppia" c3env = ⟨["bad.js"], false, 1, []⟩ ∧
      (preCommitLinter "oppia" c3env).pyLintRan = false := by decide

/-- C3 amended: a jscs invocation writing to stderr is fatal not only to
the remaining work of the JavaScript bucket but to the whole run: the
process exits 1 on the spot, pylint is never invoked on the Python
bucket, and no summary report is printed. -/
theorem c3_amended_toolError_kills_run (cwd : String) (env : RunEnv)
    (hpy : env.pylintInstalled = true) (hp : env.pathArg = none)
    (htool : (lintJsFiles env.jsRun (jsBucket (candidateFiles cwd env))).2 = none) :
    preCommitLinter cwd env =
      ⟨(lintJsFiles env.jsRun (jsBucket (candidateFiles cwd env))).1,
        false, 1, []⟩ := by
  have hm : pathMissing cwd env = false := by
    simp [pathMissing, hp]
  have hred : preCommitLinter cwd env = runLinters env (candidateFiles cwd env) := by
    simp [preCommitLinter, hpy, hm]
  rw [hred]
  exact runBuckets_toolError env _ _ htool

theorem c3_amended_toolError_kills_run_witness :
    preCommitLinter "oppia" c3env =
      ⟨(lintJsFiles c3env.jsRun (jsBucket (candidateFiles "oppia" c3env))).1,
        false, 1, []⟩ :=
  c3_amended_toolError_kills_run "oppia" c3env rfl rfl (by decide)

/-- Environment refuting C4: the jscs binary is missing while a Python
file is to be linted. -/
def c4env : RunEnv :=
  ⟨true, false, none, fun _ => true, fun _ => false, fun _ => [],
    ["mod.py"], [], fun _ => ⟨"", ""⟩, "0"⟩

/-- C4 counterexample: with the jscs binary missing the run does not
abort before linting and does not exit non-zero: pylint is still invoked
and the process completes with exit code 0. -/
theorem c4_counterexample :
    c4env.jscsInstalled = false ∧
      (preCommitLinter "oppia" c4env).pyLintRan = true ∧
      (preCommitLinter "oppia" c4env).exitCode = 0 ∧
      (preCommitLinter "oppia" c4env).summaries =
        [LintSummary.noFiles, LintSummary.pySuccess 1] := by decide

/-- C4 amended: the two missing-tool checks behave differently.  A
missing pylint installation aborts at module load, before any linting,
with exit code 1; a missing jscs binary only prints a message — the trace
of the run is identical whatever the jscs check found. -/
theorem c4_amended_tool_checks (cwd : String) (env : RunEnv) (b : Bool) :
    (env.pylintInstalled = false →
        preCommitLinter cwd env = ⟨[], false, 1, []⟩) ∧
      preCommitLinter cwd (setJscs env b) = preCommitLinter cwd env := by
  constructor
  · intro hpy
    simp [preCommitLinter, hpy]
  · rfl

/-- Environment for the C4 witness: pylint missing. -/
def c4envNoPylint : RunEnv :=
  ⟨false, true, none, fun _ => true, fun _ => false, fun _ => [],
    ["mod.py"], [], fun _ => ⟨"", ""⟩, "0"⟩

theorem c4_amended_tool_checks_witness :
    preCommitLinter "oppia" c4envNoPylint = ⟨[], false, 1, []⟩ ∧
      preCommitLinter "oppia" (setJscs c4envNoPylint true) =
        preCommitLinter "oppia" c4envNoPylint := by
  have h := c4_amended_tool_checks "oppia" c4envNoPylint true
  exact ⟨h.1 rfl, h.2⟩

end PreCommit
